import Mathlib

/-!
Shallow embedding of `cmd/run.go` from the witness CLI repository.

The function `runRun` there drives the attestation run pipeline:
signer resolution, output-file opening, attestor list construction,
attestor option binding, orchestration (`witness.Run`), envelope
serialization and writing, and optional archivista publishing.

External collaborators (the signer loader, the output file, the
go-witness library calls `attestation.Attestors` and `witness.Run`,
`json.Marshal`, `out.Write`, and the archivista client) are abstracted
as oracle fields of `RunOptions`; the control flow of `runRun` itself is
embedded line by line.  A `Trace` records the externally observable
events (errors logged, output opened/closed/written, the attestor list
handed to the orchestrator, publish attempts), so that temporal claims
about the pipeline become statements about the returned trace.
-/

set_option maxHeartbeats 1000000

namespace Witness

/-- An attestor value as it flows through `runRun`.  `type` is the stable
type identifier returned by the Go `Type()` method; `cmd` and `tracing`
record the configuration of the command-run attestor; `mods` records the
modification history applied by option setters, so that the effect (or
non-effect) of option binding on the executed attestors is observable. -/
structure Attestor where
  type : String
  cmd : List String := []
  tracing : Bool := false
  mods : List Nat := []
deriving DecidableEq, Repr

/-- A Go attestor option setter `func(attestation.Attestor) (attestation.Attestor, error)`.
The argument and first component are `Option Attestor` because a Go
interface value may be nil; the second component is the returned error. -/
def Setter : Type := Option Attestor → Option Attestor × Option String

/-- Embedding of `product.New()`. -/
def productNew : Attestor := { type := "product" }

/-- Embedding of `material.New()`. -/
def materialNew : Attestor := { type := "material" }

/-- Embedding of `commandrun.New(commandrun.WithCommand(args), commandrun.WithTracing(tracing))`. -/
def commandrunNew (args : List String) (tracing : Bool) : Attestor :=
  { type := "command-run", cmd := args, tracing := tracing }

/-- Embedding of the go-witness registry lookup performed by
`attestation.Attestors(nameList)`: each requested name is resolved in
order; the first unresolvable name yields an error and nothing is
returned.  (Modelled from the go-witness library contract, which is a
dependency of this repository, as described by the spec: resolution is a
name-by-name registry lookup preserving configuration order.) -/
def attestationAttestors (registry : String → Option Attestor) :
    List String → Except String (List Attestor)
  | [] => Except.ok []
  | n :: rest =>
    match registry n with
    | none => Except.error ("attestor not found: " ++ n)
    | some a =>
      match attestationAttestors registry rest with
      | Except.ok tail => Except.ok (a :: tail)
      | Except.error e => Except.error e

/-- Lookup in the Go map `ro.AttestorOptSetters`, modelled as an
association list with first-match lookup. -/
def lookupSetters (key : String) : List (String × List Setter) → Option (List Setter)
  | [] => none
  | (k, v) :: rest => if k = key then some v else lookupSetters key rest

/-- Result of the option-binding loop: success, an error return, or a Go
runtime panic (nil interface dereference in the error branch). -/
inductive BindResult
  | ok
  | err (msg : String)
  | crashed
deriving DecidableEq, Repr

/-- The inner loop of the option binder, for one element of the attestor
slice.  The loop variable `attestor` is reassigned by
`attestor, err = setter(attestor)`; on a non-nil error the message calls
`attestor.Type()` on the value the setter just returned, which is a nil
dereference when that value is nil.  The final value of the loop
variable is discarded: the attestor slice is never updated. -/
def applySetters : Option Attestor → List Setter → BindResult
  | _, [] => BindResult.ok
  | a, s :: rest =>
    match s a with
    | (a', some msg) =>
      match a' with
      | some att =>
        BindResult.err ("failed to set attestor option for " ++ att.type ++ ": " ++ msg)
      | none => BindResult.crashed
    | (a', none) => applySetters a' rest

/-- The outer loop of the option binder: `for _, attestor := range attestors`.
Each element's type is looked up in the setter map; missing keys are
skipped with `continue`.  Note the slice itself is returned unchanged by
the Go code (the loop writes only to the range copy), which is why this
function produces no updated list. -/
def bindOptions (optSetters : List (String × List Setter)) : List Attestor → BindResult
  | [] => BindResult.ok
  | a :: rest =>
    match lookupSetters a.type optSetters with
    | none => bindOptions optSetters rest
    | some setters =>
      match applySetters (some a) setters with
      | BindResult.ok => bindOptions optSetters rest
      | r => r

/-- The attestor list built before pluggable resolution:
`attestors := []attestation.Attestor{product.New(), material.New()}`
followed by the conditional `commandrun` append when `args` is non-empty. -/
def baseAttestors (args : List String) (tracing : Bool) : List Attestor :=
  if args.length > 0 then
    [productNew, materialNew] ++ [commandrunNew args tracing]
  else
    [productNew, materialNew]

/-- The run options record, holding both the configuration fields read
by `runRun` and oracles for the external calls it makes.  `signers` and
`signerLoadErrors` are the result of `loadSigners`; `outfileResult` is
the result of `loadOutfile`; `registry` backs `attestation.Attestors`;
`runResult` is the result of `witness.Run` (an abstract envelope id on
success); `marshalResult` is `json.Marshal` on that envelope;
`writeOk` is whether `out.Write` succeeds; `archivistaStoreResult` is
the archivista client's `Store`. -/
structure RunOptions where
  signers : List Nat := []
  signerLoadErrors : List String := []
  outfileResult : Except String Unit := Except.ok ()
  timestampServers : List String := []
  tracing : Bool := false
  attestations : List String := []
  attestorOptSetters : List (String × List Setter) := []
  registry : String → Option Attestor := fun _ => none
  runResult : Except String Nat := Except.ok 0
  marshalResult : Nat → Except String (List Nat) := fun e => Except.ok [e]
  writeOk : Bool := true
  archivistaEnable : Bool := false
  archivistaStoreResult : Except String String := Except.ok "gitoid"

/-- Final outcome of `runRun`: normal return, error return, or a Go
runtime panic. -/
inductive Outcome
  | ok
  | err (msg : String)
  | crash
deriving DecidableEq, Repr

/-- Externally observable events of one `runRun` invocation. -/
structure Trace where
  loggedErrors : List String := []
  outOpened : Bool := false
  outClosed : Nat := 0
  attestorsConstructed : Bool := false
  ranAttestors : Option (List Attestor) := none
  outWritten : List (List Nat) := []
  publishAttempted : Bool := false
  publishedGitoid : Option String := none
deriving DecidableEq, Repr

/-- The deferred `out.Close()`. -/
def closeOut (t : Trace) : Trace := { t with outClosed := t.outClosed + 1 }

/-- The tail of `runRun` from `defer out.Close()` onward (the deferred
close itself is applied by the caller, exactly once on every exit path
of this portion): `witness.Run`, `json.Marshal`, `out.Write`, and the
optional archivista publish. -/
def runAfterDefer (ro : RunOptions) (attestors : List Attestor) (t : Trace) :
    Outcome × Trace :=
  let t := { t with ranAttestors := some attestors }
  match ro.runResult with
  | Except.error e => (Outcome.err e, t)
  | Except.ok envelope =>
    match ro.marshalResult envelope with
    | Except.error e => (Outcome.err ("failed to marshal envelope: " ++ e), t)
    | Except.ok signedBytes =>
      if ro.writeOk then
        let t := { t with outWritten := t.outWritten ++ [signedBytes] }
        if ro.archivistaEnable then
          let t := { t with publishAttempted := true }
          match ro.archivistaStoreResult with
          | Except.error e =>
            (Outcome.err ("failed to store artifact in archivist: " ++ e), t)
          | Except.ok gitoid => (Outcome.ok, { t with publishedGitoid := some gitoid })
        else (Outcome.ok, t)
      else (Outcome.err "failed to write envelope to out file", t)

/-- Embedding of `runRun(ctx, ro, args)`: signer checks, output-file
open, attestor construction, pluggable resolution, option binding, and
then the post-defer tail with the deferred close applied on its exit.
Branch order and error messages follow the source. -/
def runRun (ro : RunOptions) (args : List String) : Outcome × Trace :=
  if ro.signerLoadErrors.length > 0 then
    (Outcome.err "failed to load signers", { loggedErrors := ro.signerLoadErrors })
  else if ro.signers.length > 1 then
    (Outcome.err "only one signer is supported",
      { loggedErrors := ["only one signer is supported"] })
  else if ro.signers.length = 0 then
    (Outcome.err "no signers found", { loggedErrors := ["no signers found"] })
  else
    match ro.outfileResult with
    | Except.error e => (Outcome.err ("failed to open out file: " ++ e), {})
    | Except.ok _ =>
      let t : Trace := { outOpened := true, attestorsConstructed := true }
      match attestationAttestors ro.registry ro.attestations with
      | Except.error e => (Outcome.err ("failed to create attestors := " ++ e), t)
      | Except.ok addtl =>
        let attestors := baseAttestors args ro.tracing ++ addtl
        match bindOptions ro.attestorOptSetters attestors with
        | BindResult.err m => (Outcome.err m, t)
        | BindResult.crashed => (Outcome.crash, t)
        | BindResult.ok =>
          let r := runAfterDefer ro attestors t
          (r.1, closeOut r.2)

/-! Helper lemmas about the post-defer tail. -/

theorem runAfterDefer_ranAttestors (ro : RunOptions) (l : List Attestor) (t : Trace) :
    (runAfterDefer ro l t).2.ranAttestors = some l := by
  unfold runAfterDefer
  split <;> try rfl
  split <;> try rfl
  split <;> try rfl
  split <;> try rfl
  split <;> rfl

theorem runAfterDefer_outClosed (ro : RunOptions) (l : List Attestor) (t : Trace) :
    (runAfterDefer ro l t).2.outClosed = t.outClosed := by
  unfold runAfterDefer
  split <;> try rfl
  split <;> try rfl
  split <;> try rfl
  split <;> try rfl
  split <;> rfl

theorem runAfterDefer_outOpened (ro : RunOptions) (l : List Attestor) (t : Trace) :
    (runAfterDefer ro l t).2.outOpened = t.outOpened := by
  unfold runAfterDefer
  split <;> try rfl
  split <;> try rfl
  split <;> try rfl
  split <;> try rfl
  split <;> rfl

theorem runAfterDefer_attestorsConstructed (ro : RunOptions) (l : List Attestor) (t : Trace) :
    (runAfterDefer ro l t).2.attestorsConstructed = t.attestorsConstructed := by
  unfold runAfterDefer
  split <;> try rfl
  split <;> try rfl
  split <;> try rfl
  split <;> try rfl
  split <;> rfl

theorem runAfterDefer_err (ro : RunOptions) (l : List Attestor) (t : Trace) (e : String)
    (h : ro.runResult = Except.error e) :
    runAfterDefer ro l t = (Outcome.err e, { t with ranAttestors := some l }) := by
  unfold runAfterDefer
  rw [h]

theorem runAfterDefer_outWritten_char (ro : RunOptions) (l : List Attestor) (t : Trace) :
    (runAfterDefer ro l t).2.outWritten =
      (match ro.runResult with
       | Except.error _ => t.outWritten
       | Except.ok env =>
         match ro.marshalResult env with
         | Except.error _ => t.outWritten
         | Except.ok b => if ro.writeOk then t.outWritten ++ [b] else t.outWritten) := by
  unfold runAfterDefer
  split <;> try rfl
  split <;> try rfl
  split <;> try rfl
  split <;> try rfl
  split <;> rfl

theorem runAfterDefer_outWritten_toggle (ro : RunOptions) (l l' : List Attestor) (t : Trace) :
    (runAfterDefer ro l t).2.outWritten
      = (runAfterDefer { ro with archivistaEnable := false } l' t).2.outWritten := by
  rw [runAfterDefer_outWritten_char, runAfterDefer_outWritten_char]

theorem runAfterDefer_publishAttempted_char (ro : RunOptions) (l : List Attestor) (t : Trace) :
    (runAfterDefer ro l t).2.publishAttempted =
      (match ro.runResult with
       | Except.error _ => t.publishAttempted
       | Except.ok env =>
         match ro.marshalResult env with
         | Except.error _ => t.publishAttempted
         | Except.ok _ =>
           if ro.writeOk then
             (if ro.archivistaEnable then true else t.publishAttempted)
           else t.publishAttempted) := by
  unfold runAfterDefer
  split <;> try rfl
  split <;> try rfl
  split <;> try rfl
  split <;> try rfl
  split <;> rfl

theorem runAfterDefer_fst_char (ro : RunOptions) (l : List Attestor) (t : Trace) :
    (runAfterDefer ro l t).1 =
      (match ro.runResult with
       | Except.error e => Outcome.err e
       | Except.ok env =>
         match ro.marshalResult env with
         | Except.error e => Outcome.err ("failed to marshal envelope: " ++ e)
         | Except.ok _ =>
           if ro.writeOk then
             if ro.archivistaEnable then
               match ro.archivistaStoreResult with
               | Except.error e => Outcome.err ("failed to store artifact in archivist: " ++ e)
               | Except.ok _ => Outcome.ok
             else Outcome.ok
           else Outcome.err "failed to write envelope to out file") := by
  unfold runAfterDefer
  split <;> try rfl
  split <;> try rfl
  split <;> try rfl
  split <;> try rfl
  split <;> rfl

theorem runAfterDefer_publish_req (ro : RunOptions) (l : List Attestor) (t : Trace)
    (hp : t.publishAttempted = false)
    (h : (runAfterDefer ro l t).2.publishAttempted = true) :
    ro.archivistaEnable = true ∧
    ∃ b, (runAfterDefer ro l t).2.outWritten = t.outWritten ++ [b] := by
  rw [runAfterDefer_publishAttempted_char] at h
  rw [runAfterDefer_outWritten_char]
  cases hr : ro.runResult with
  | error e => simp only [hr] at h; simp [hp] at h
  | ok env =>
    simp only [hr] at h ⊢
    cases hm : ro.marshalResult env with
    | error e => simp only [hm] at h; simp [hp] at h
    | ok b =>
      simp only [hm] at h ⊢
      by_cases hw : ro.writeOk
      · simp only [hw, if_true] at h ⊢
        by_cases he : ro.archivistaEnable
        · exact ⟨he, b, rfl⟩
        · simp [he, hp] at h
      · simp [hw, hp] at h

theorem runAfterDefer_publish_err (ro : RunOptions) (l : List Attestor) (t : Trace) (e : String)
    (hp : t.publishAttempted = false)
    (hs : ro.archivistaStoreResult = Except.error e)
    (h : (runAfterDefer ro l t).2.publishAttempted = true) :
    (runAfterDefer ro l t).1 = Outcome.err ("failed to store artifact in archivist: " ++ e) := by
  rw [runAfterDefer_publishAttempted_char] at h
  rw [runAfterDefer_fst_char]
  cases hr : ro.runResult with
  | error e' => simp only [hr] at h; simp [hp] at h
  | ok env =>
    simp only [hr] at h ⊢
    cases hm : ro.marshalResult env with
    | error e' => simp only [hm] at h; simp [hp] at h
    | ok b =>
      simp only [hm] at h ⊢
      by_cases hw : ro.writeOk
      · simp only [hw, if_true] at h ⊢
        by_cases he : ro.archivistaEnable
        · simp [he, hs]
        · simp [he, hp] at h
      · simp [hw, hp] at h

theorem runAfterDefer_publish_disabled (ro : RunOptions) (l : List Attestor) (t : Trace)
    (hp : t.publishAttempted = false) (he : ro.archivistaEnable = false) :
    (runAfterDefer ro l t).2.publishAttempted = false := by
  rw [runAfterDefer_publishAttempted_char]
  cases hr : ro.runResult with
  | error e => simpa using hp
  | ok env =>
    simp only []
    cases hm : ro.marshalResult env with
    | error e => simpa using hp
    | ok b =>
      simp only []
      by_cases hw : ro.writeOk
      · simp [hw, he, hp]
      · simp [hw, hp]

theorem runAfterDefer_disabled_ok (ro : RunOptions) (l : List Attestor) (t : Trace)
    (he : ro.archivistaEnable = false)
    (h : (runAfterDefer ro l t).2.outWritten ≠ t.outWritten) :
    (runAfterDefer ro l t).1 = Outcome.ok := by
  rw [runAfterDefer_outWritten_char] at h
  rw [runAfterDefer_fst_char]
  cases hr : ro.runResult with
  | error e => simp only [hr] at h; simp at h
  | ok env =>
    simp only [hr] at h ⊢
    cases hm : ro.marshalResult env with
    | error e => simp only [hm] at h; simp at h
    | ok b =>
      simp only [hm] at h ⊢
      by_cases hw : ro.writeOk
      · simp [hw, he]
      · simp [hw] at h

/-! Helper lemmas about option binding and the pipeline as a whole. -/

theorem bindOptions_skip (k : String) (ss : List Setter) (m : List (String × List Setter))
    (l : List Attestor) (h : ∀ a ∈ l, Attestor.type a ≠ k) :
    bindOptions ((k, ss) :: m) l = bindOptions m l := by
  induction l with
  | nil => rfl
  | cons a rest ih =>
    have hk : ¬ (k = a.type) := fun hkk => (h a (List.mem_cons_self a rest)) hkk.symm
    have ih' := ih (fun x hx => h x (List.mem_cons_of_mem _ hx))
    unfold bindOptions
    rw [show lookupSetters a.type ((k, ss) :: m) = lookupSetters a.type m from by
      simp [lookupSetters, hk]]
    cases hls : lookupSetters a.type m with
    | none => simp only []; exact ih'
    | some setters =>
      simp only []
      cases hap : applySetters (some a) setters with
      | ok => simp only []; exact ih'
      | err msg => rfl
      | crashed => rfl

/-- The trace state at the point where the attestor list has been built,
right after the output file opened successfully. -/
def trace0 : Trace := { outOpened := true, attestorsConstructed := true }

theorem runRun_cases (ro : RunOptions) (args : List String) :
    ((runRun ro args).2.ranAttestors = none ∧ (runRun ro args).2.outWritten = [] ∧
      (runRun ro args).2.publishAttempted = false ∧ (runRun ro args).2.outClosed = 0) ∨
    (∃ addtl, attestationAttestors ro.registry ro.attestations = Except.ok addtl ∧
      bindOptions ro.attestorOptSetters (baseAttestors args ro.tracing ++ addtl) = BindResult.ok ∧
      runRun ro args =
        ((runAfterDefer ro (baseAttestors args ro.tracing ++ addtl) trace0).1,
          closeOut (runAfterDefer ro (baseAttestors args ro.tracing ++ addtl) trace0).2)) := by
  unfold runRun
  split <;> try simp
  split <;> try simp
  split <;> try simp
  split <;> try simp
  split <;> try simp
  rename_i addtl heq
  cases hb : bindOptions ro.attestorOptSetters (baseAttestors args ro.tracing ++ addtl) with
  | ok => exact Or.inr ⟨addtl, heq, hb, rfl⟩
  | err m => simp
  | crashed => simp

theorem baseAttestors_eq (args : List String) (tracing : Bool) :
    baseAttestors args tracing =
      (if args = [] then [productNew, materialNew]
       else [productNew, materialNew, commandrunNew args tracing]) := by
  unfold baseAttestors
  rcases args with _ | ⟨a, l⟩ <;> simp

theorem runRun_outWritten_char (ro : RunOptions) (args : List String) :
    (runRun ro args).2.outWritten =
      (if ro.signerLoadErrors.length > 0 then []
       else if ro.signers.length > 1 then []
       else if ro.signers.length = 0 then []
       else
        match ro.outfileResult with
        | Except.error _ => []
        | Except.ok _ =>
          match attestationAttestors ro.registry ro.attestations with
          | Except.error _ => []
          | Except.ok addtl =>
            match bindOptions ro.attestorOptSetters (baseAttestors args ro.tracing ++ addtl) with
            | BindResult.ok =>
              (match ro.runResult with
               | Except.error _ => []
               | Except.ok env =>
                 match ro.marshalResult env with
                 | Except.error _ => []
                 | Except.ok b => if ro.writeOk then [b] else [])
            | _ => []) := by
  unfold runRun
  split <;> try simp
  split <;> try simp
  split <;> try simp
  split <;> try simp
  split <;> try simp
  rename_i addtl heq
  cases hb : bindOptions ro.attestorOptSetters (baseAttestors args ro.tracing ++ addtl) with
  | ok => simp [closeOut, runAfterDefer_outWritten_char]
  | err m => simp
  | crashed => simp

theorem runRun_outWritten_toggle (ro : RunOptions) (args : List String) :
    (runRun ro args).2.outWritten
      = (runRun { ro with archivistaEnable := false } args).2.outWritten := by
  rw [runRun_outWritten_char, runRun_outWritten_char]

/-! Concrete setters used in witnesses and counterexamples. -/

/-- A setter that returns a reconfigured copy of its argument (mod id 1
appended to the modification history) and no error, and errors on a nil
argument. -/
def modSetter : Setter := fun a =>
  match a with
  | some att => (some { att with mods := att.mods ++ [1] }, none)
  | none => (none, some "nil attestor")

/-- A setter that returns a nil attestor together with a non-nil error,
the shape that drives the option-binding error branch into a nil
interface dereference. -/
def nilSetter : Setter := fun _ => (none, some "boom")

/-! Claim theorems. -/

/-- Claim C1, counterexample: with an empty argument list and a good
one-signer configuration, the attestor list handed to the orchestrator
is `[product, material]` (the source builds `product.New()` first),
not `[material, product]` as the claim states. -/
theorem attestor_order_spec_counterexample :
    (runRun { signers := [1] } []).2.ranAttestors = some [productNew, materialNew] ∧
    Attestor.type productNew = "product" ∧ Attestor.type materialNew = "material" ∧
    [productNew, materialNew] ≠ [materialNew, productNew] :=
  ⟨rfl, rfl, rfl, by decide⟩

/-- Claim C1, amended: whenever the orchestrator is reached, the attestor
list is `[product, material]` for an empty argument list, and
`[product, material, command-run]` followed by the pluggable attestors in
configuration order otherwise. -/
theorem attestor_order_after_build (ro : RunOptions) (args : List String)
    (addtl : List Attestor)
    (ha : attestationAttestors ro.registry ro.attestations = Except.ok addtl)
    (l : List Attestor) (hl : (runRun ro args).2.ranAttestors = some l) :
    l = (if args = [] then [productNew, materialNew]
         else [productNew, materialNew, commandrunNew args ro.tracing]) ++ addtl := by
  rcases runRun_cases ro args with ⟨hr, _, _, _⟩ | ⟨addtl', ha', hb, hrr⟩
  · rw [hr] at hl; cases hl
  · rw [ha] at ha'
    injection ha' with h'
    subst h'
    rw [hrr] at hl
    simp only [closeOut] at hl
    rw [runAfterDefer_ranAttestors] at hl
    injection hl with hl'
    rw [← hl', baseAttestors_eq]

/-- Claim C1, witness: the amended order theorem evaluated on a two-word
command with no pluggable attestors. -/
theorem attestor_order_after_build_witness :
    [productNew, materialNew, commandrunNew ["go", "build"] false]
      = (if (["go", "build"] : List String) = [] then [productNew, materialNew]
         else [productNew, materialNew, commandrunNew ["go", "build"] false])
        ++ ([] : List Attestor) :=
  attestor_order_after_build { signers := [1] } ["go", "build"] [] rfl
    [productNew, materialNew, commandrunNew ["go", "build"] false] rfl

/-- Claim C2, code behavior at the failing input: a setter bound to the
product attestor type returns a reconfigured instance and no error, yet
the attestor list handed to the orchestrator still holds the original
unmodified product attestor — the loop writes the setter's result only
to the range variable, never back into the slice. -/
theorem setter_result_discarded :
    modSetter (some productNew) = (some { productNew with mods := [1] }, none) ∧
    (some { productNew with mods := [1] } : Option Attestor) ≠ some productNew ∧
    (runRun { signers := [1], attestorOptSetters := [("product", [modSetter])] } []).1
      = Outcome.ok ∧
    (runRun { signers := [1], attestorOptSetters := [("product", [modSetter])] } []).2.ranAttestors
      = some [productNew, materialNew] :=
  ⟨rfl, by decide, rfl, rfl⟩

/-- Claim C3, counterexample: when a pluggable attestor name cannot be
resolved, the pipeline returns with the output destination opened but
never closed — the deferred close is installed only after option
binding, so this exit path is not covered. -/
theorem outfile_leak_counterexample :
    (runRun { signers := [1], attestations := ["bogus"] } []).1
      = Outcome.err "failed to create attestors := attestor not found: bogus" ∧
    (runRun { signers := [1], attestations := ["bogus"] } []).2.outOpened = true ∧
    (runRun { signers := [1], attestations := ["bogus"] } []).2.outClosed = 0 :=
  ⟨rfl, rfl, rfl⟩

/-- Claim C3, amended: the output destination is closed exactly once on
every exit path from the orchestration call onward (the deferred close
is installed just before it), and is never closed on the exit paths
before that point. -/
theorem outClosed_iff_orchestration_reached (ro : RunOptions) (args : List String) :
    ((runRun ro args).2.ranAttestors = none → (runRun ro args).2.outClosed = 0) ∧
    (∀ l, (runRun ro args).2.ranAttestors = some l → (runRun ro args).2.outClosed = 1) := by
  unfold runRun
  split <;> try simp
  split <;> try simp
  split <;> try simp
  split <;> try simp
  split <;> try simp
  rename_i addtl heq
  cases hb : bindOptions ro.attestorOptSetters (baseAttestors args ro.tracing ++ addtl) with
  | ok => simp [closeOut, runAfterDefer_outClosed, runAfterDefer_ranAttestors]
  | err m => simp
  | crashed => simp

/-- Claim C3, witness: a successful run closes the destination exactly
once. -/
theorem outClosed_iff_orchestration_reached_witness :
    (runRun { signers := [1] } []).2.outClosed = 1 :=
  (outClosed_iff_orchestration_reached { signers := [1] } []).2 [productNew, materialNew] rfl

/-- Claim C4: if the orchestration step fails, nothing is ever written to
the output destination, and whenever the orchestrator was actually
invoked the pipeline returns exactly that error. -/
theorem run_error_writes_nothing (ro : RunOptions) (args : List String) (e : String)
    (h : ro.runResult = Except.error e) :
    (runRun ro args).2.outWritten = [] ∧
    (∀ l, (runRun ro args).2.ranAttestors = some l → (runRun ro args).1 = Outcome.err e) := by
  rcases runRun_cases ro args with ⟨hr, hw, _, _⟩ | ⟨addtl, ha, hb, hrr⟩
  · exact ⟨hw, fun l hl => absurd (hr ▸ hl) (by simp)⟩
  · constructor
    · rw [hrr]
      simp only [closeOut]
      rw [runAfterDefer_outWritten_char]
      simp only [h]
      rfl
    · intro l hl
      rw [hrr]
      rw [runAfterDefer_fst_char]
      simp only [h]

/-- Claim C4, witness: a signing failure is surfaced as the pipeline
error with nothing written. -/
theorem run_error_writes_nothing_witness :
    (runRun { signers := [1], runResult := Except.error "signing failed" } []).2.outWritten
      = [] ∧
    (runRun { signers := [1], runResult := Except.error "signing failed" } []).1
      = Outcome.err "signing failed" :=
  ⟨(run_error_writes_nothing { signers := [1], runResult := Except.error "signing failed" }
      [] "signing failed" rfl).1,
   (run_error_writes_nothing { signers := [1], runResult := Except.error "signing failed" }
      [] "signing failed" rfl).2 [productNew, materialNew] rfl⟩

/-- Claim C5: with zero or at least two loadable signers the pipeline
fails before the output destination is opened, before any attestor is
constructed, and before any attestor executes; when no load errors
occurred, the error is the no-signer or ambiguous-signer message
respectively (load errors, checked first, yield the load-error message
instead). -/
theorem signer_count_fails_early (ro : RunOptions) (args : List String)
    (h : ro.signers.length = 0 ∨ 2 ≤ ro.signers.length) :
    ((runRun ro args).1 = Outcome.err "failed to load signers" ∨
     (runRun ro args).1 = Outcome.err "only one signer is supported" ∨
     (runRun ro args).1 = Outcome.err "no signers found") ∧
    (runRun ro args).2.outOpened = false ∧
    (runRun ro args).2.attestorsConstructed = false ∧
    (runRun ro args).2.ranAttestors = none ∧
    (runRun ro args).2.outWritten = [] ∧
    (ro.signerLoadErrors = [] →
      (ro.signers.length = 0 → (runRun ro args).1 = Outcome.err "no signers found") ∧
      (2 ≤ ro.signers.length →
        (runRun ro args).1 = Outcome.err "only one signer is supported")) := by
  by_cases he : ro.signerLoadErrors.length > 0
  · have hne : ro.signerLoadErrors ≠ [] := by
      intro hh; rw [hh] at he; simp at he
    unfold runRun
    simp [he, hne]
  · rcases h with h0 | h2
    · unfold runRun
      simp [he, h0]
    · have h1 : ro.signers.length > 1 := by omega
      have h0' : ¬ ro.signers.length = 0 := by omega
      unfold runRun
      simp [he, h1, h0']

/-- Claim C5, witness: two loadable signers abort with the
ambiguous-signer error, destination untouched and no attestor built. -/
theorem signer_count_fails_early_witness :
    ((runRun { signers := [1, 2] } []).1 = Outcome.err "failed to load signers" ∨
     (runRun { signers := [1, 2] } []).1 = Outcome.err "only one signer is supported" ∨
     (runRun { signers := [1, 2] } []).1 = Outcome.err "no signers found") ∧
    (runRun { signers := [1, 2] } []).2.outOpened = false ∧
    (runRun { signers := [1, 2] } []).2.attestorsConstructed = false ∧
    (runRun { signers := [1, 2] } []).2.ranAttestors = none ∧
    (runRun { signers := [1, 2] } []).2.outWritten = [] ∧
    (([] : List String) = [] →
      (([1, 2] : List Nat).length = 0 →
        (runRun { signers := [1, 2] } []).1 = Outcome.err "no signers found") ∧
      (2 ≤ ([1, 2] : List Nat).length →
        (runRun { signers := [1, 2] } []).1 = Outcome.err "only one signer is supported")) :=
  signer_count_fails_early { signers := [1, 2] } [] (Or.inr (by decide))

/-- Claim C6: when signer loading produced errors, the pipeline fails
with the load-error message, every individual error is logged (the full
list, none truncated), and no later stage runs. -/
theorem signer_load_errors_reported (ro : RunOptions) (args : List String)
    (h : ro.signerLoadErrors ≠ []) :
    (runRun ro args).1 = Outcome.err "failed to load signers" ∧
    (runRun ro args).2.loggedErrors = ro.signerLoadErrors ∧
    (runRun ro args).2.outOpened = false ∧
    (runRun ro args).2.attestorsConstructed = false ∧
    (runRun ro args).2.ranAttestors = none ∧
    (runRun ro args).2.outWritten = [] := by
  have hl : ro.signerLoadErrors.length > 0 := List.length_pos.mpr h
  unfold runRun
  simp [hl]

/-- Claim C6, witness: two independent load errors are both reported. -/
theorem signer_load_errors_reported_witness :
    (runRun { signerLoadErrors := ["bad key a", "bad key b"] } []).1
      = Outcome.err "failed to load signers" ∧
    (runRun { signerLoadErrors := ["bad key a", "bad key b"] } []).2.loggedErrors
      = ["bad key a", "bad key b"] ∧
    (runRun { signerLoadErrors := ["bad key a", "bad key b"] } []).2.outOpened = false ∧
    (runRun { signerLoadErrors := ["bad key a", "bad key b"] } []).2.attestorsConstructed
      = false ∧
    (runRun { signerLoadErrors := ["bad key a", "bad key b"] } []).2.ranAttestors = none ∧
    (runRun { signerLoadErrors := ["bad key a", "bad key b"] } []).2.outWritten = [] :=
  signer_load_errors_reported { signerLoadErrors := ["bad key a", "bad key b"] } []
    (by decide)

/-- Claim C7: publishing is attempted only when enabled and only after a
successful local write; with publishing disabled it is a no-op (never
attempted, and a reached write yields a successful run); the bytes
written locally are identical to those of the same run with publishing
disabled; and a store failure after a publish attempt is surfaced as the
pipeline error. -/
theorem publish_after_local_write (ro : RunOptions) (args : List String) :
    ((runRun ro args).2.publishAttempted = true →
      ro.archivistaEnable = true ∧ (runRun ro args).2.outWritten ≠ []) ∧
    (ro.archivistaEnable = false → (runRun ro args).2.publishAttempted = false) ∧
    ((runRun ro args).2.outWritten
      = (runRun { ro with archivistaEnable := false } args).2.outWritten) ∧
    (ro.archivistaEnable = false → (runRun ro args).2.outWritten ≠ [] →
      (runRun ro args).1 = Outcome.ok) ∧
    (∀ e, ro.archivistaStoreResult = Except.error e →
      (runRun ro args).2.publishAttempted = true →
      (runRun ro args).1 = Outcome.err ("failed to store artifact in archivist: " ++ e)) := by
  refine ⟨?_, ?_, runRun_outWritten_toggle ro args, ?_, ?_⟩
  · intro h
    rcases runRun_cases ro args with ⟨_, _, hp, _⟩ | ⟨addtl, ha, hb, hrr⟩
    · rw [hp] at h; cases h
    · rw [hrr] at h ⊢
      simp only [closeOut] at h ⊢
      obtain ⟨he, b, hw⟩ := runAfterDefer_publish_req ro _ trace0 rfl h
      refine ⟨he, ?_⟩
      rw [hw]
      simp [trace0]
  · intro he
    rcases runRun_cases ro args with ⟨_, _, hp, _⟩ | ⟨addtl, ha, hb, hrr⟩
    · exact hp
    · rw [hrr]
      simp only [closeOut]
      exact runAfterDefer_publish_disabled ro _ trace0 rfl he
  · intro he hw
    rcases runRun_cases ro args with ⟨_, hwq, _, _⟩ | ⟨addtl, ha, hb, hrr⟩
    · rw [hwq] at hw; exact absurd rfl hw
    · rw [hrr] at hw ⊢
      simp only [closeOut] at hw ⊢
      refine runAfterDefer_disabled_ok ro _ trace0 he ?_
      simpa [trace0] using hw
  · intro e hs h
    rcases runRun_cases ro args with ⟨_, _, hp, _⟩ | ⟨addtl, ha, hb, hrr⟩
    · rw [hp] at h; cases h
    · rw [hrr] at h ⊢
      simp only [closeOut] at h ⊢
      exact runAfterDefer_publish_err ro _ trace0 e rfl hs h

/-- Claim C7, witness: a failing archivista store surfaces as the
pipeline error while the locally written envelope bytes remain. -/
theorem publish_after_local_write_witness :
    (runRun { signers := [1], archivistaEnable := true,
              archivistaStoreResult := Except.error "connection refused" } []).1
      = Outcome.err "failed to store artifact in archivist: connection refused" ∧
    (runRun { signers := [1], archivistaEnable := true,
              archivistaStoreResult := Except.error "connection refused" } []).2.outWritten
      = [[0]] :=
  ⟨(publish_after_local_write
      { signers := [1], archivistaEnable := true,
        archivistaStoreResult := Except.error "connection refused" } []).2.2.2.2
      "connection refused" rfl rfl,
    rfl⟩

/-- Claim C8: a setter that returns a nil attestor together with a
non-nil error drives the option-binding error branch into a nil
interface dereference (modelled as a crash outcome) instead of returning
the configuration error, and the orchestrator is never invoked; the
inner-loop fact holds for every such setter. -/
theorem nil_setter_error_branch_crashes (ro : RunOptions) (args : List String)
    (h1 : ro.signerLoadErrors = []) (h2 : ro.signers.length = 1)
    (h3 : ro.outfileResult = Except.ok ()) (addtl : List Attestor)
    (h4 : attestationAttestors ro.registry ro.attestations = Except.ok addtl)
    (h5 : bindOptions ro.attestorOptSetters (baseAttestors args ro.tracing ++ addtl)
      = BindResult.crashed) :
    (runRun ro args).1 = Outcome.crash ∧
    (runRun ro args).2.ranAttestors = none ∧
    (∀ (a : Attestor) (s : Setter) (msg : String) (rest : List Setter),
      s (some a) = (none, some msg) →
        applySetters (some a) (s :: rest) = BindResult.crashed) := by
  refine ⟨?_, ?_, ?_⟩
  · unfold runRun
    simp [h1, h2, h3, h4, h5]
  · unfold runRun
    simp [h1, h2, h3, h4, h5]
  · intro a s msg rest hs
    simp [applySetters, hs]

/-- Claim C8, witness: a nil-returning failing setter bound to the
product attestor type crashes the run. -/
theorem nil_setter_error_branch_crashes_witness :
    (runRun { signers := [1], attestorOptSetters := [("product", [nilSetter])] } []).1
      = Outcome.crash :=
  (nil_setter_error_branch_crashes
    { signers := [1], attestorOptSetters := [("product", [nilSetter])] } []
    rfl rfl rfl [] rfl rfl).1

/-- Claim C9: signer-resolution failures leave the output destination
untouched, while after a successful signer resolution and open, the
destination is already open during pluggable-attestor resolution and
option binding — any failure there happens with the destination open. -/
theorem outfile_opened_before_binding (ro : RunOptions) (args : List String) :
    ((ro.signerLoadErrors ≠ [] ∨ ro.signers.length ≠ 1) →
      (runRun ro args).2.outOpened = false) ∧
    (ro.signerLoadErrors = [] → ro.signers.length = 1 → ro.outfileResult = Except.ok () →
      (runRun ro args).2.outOpened = true) := by
  constructor
  · intro h
    by_cases he : ro.signerLoadErrors.length > 0
    · unfold runRun; simp [he]
    · have hne : ro.signerLoadErrors = [] := by
        cases hsl : ro.signerLoadErrors with
        | nil => rfl
        | cons a l => rw [hsl] at he; simp at he
      rcases h with h | h
      · exact absurd hne h
      · by_cases h1 : ro.signers.length > 1
        · unfold runRun; simp [he, h1]
        · have h0 : ro.signers.length = 0 := by omega
          unfold runRun; simp [he, h1, h0]
  · intro h1 h2 h3
    have hx : ¬ ro.signerLoadErrors.length > 0 := by rw [h1]; simp
    have hy : ¬ ro.signers.length > 1 := by omega
    have hz : ¬ ro.signers.length = 0 := by omega
    unfold runRun
    simp only [hx, hy, hz, h3, if_false, ite_false, if_neg, gt_iff_lt, Bool.false_eq_true]
    split <;> try simp
    split <;> try simp
    simp [closeOut, runAfterDefer_outOpened]

/-- Claim C9, witness: a failing pluggable-attestor resolution happens
with the destination already opened. -/
theorem outfile_opened_before_binding_witness :
    (runRun { signers := [1], attestations := ["bogus"] } []).2.outOpened = true :=
  (outfile_opened_before_binding { signers := [1], attestations := ["bogus"] } []).2
    rfl rfl rfl

/-- Claim C10: a setter-map key that matches no built attestor's type is
silently skipped — its setters are never applied, they cause no error,
and the whole run result is unchanged. -/
theorem unmatched_setter_keys_ignored (ro : RunOptions) (args : List String)
    (k : String) (ss : List Setter)
    (h : ∀ addtl, attestationAttestors ro.registry ro.attestations = Except.ok addtl →
        ∀ a ∈ baseAttestors args ro.tracing ++ addtl, Attestor.type a ≠ k) :
    runRun { ro with attestorOptSetters := (k, ss) :: ro.attestorOptSetters } args
      = runRun ro args := by
  unfold runRun
  by_cases h1 : ro.signerLoadErrors.length > 0
  · simp [h1]
  · by_cases h2 : ro.signers.length > 1
    · simp [h1, h2]
    · by_cases h3 : ro.signers.length = 0
      · simp [h1, h2, h3]
      · cases ho : ro.outfileResult with
        | error e => simp [h1, h2, h3, ho]
        | ok u =>
          cases ha : attestationAttestors ro.registry ro.attestations with
          | error e => simp [h1, h2, h3, ho, ha]
          | ok addtl =>
            have hskip := bindOptions_skip k ss ro.attestorOptSetters
              (baseAttestors args ro.tracing ++ addtl) (h addtl ha)
            simp only [h1, h2, h3, ho, ha, hskip, if_false, gt_iff_lt]
            cases hb : bindOptions ro.attestorOptSetters
                (baseAttestors args ro.tracing ++ addtl) <;> rfl

/-- Claim C10, witness: binding a crashing setter under a type name no
attestor carries leaves the run identical to the run without it. -/
theorem unmatched_setter_keys_ignored_witness :
    runRun { signers := [1], attestorOptSetters := [("bogus", [nilSetter])] } []
      = runRun { signers := [1] } [] :=
  unmatched_setter_keys_ignored { signers := [1] } [] "bogus" [nilSetter] (by
    intro addtl ha a hmem
    have h' : Except.ok ([] : List Attestor) = Except.ok addtl := ha
    injection h' with h''
    subst h''
    have hmem' : a = productNew ∨ a = materialNew := by
      simpa [baseAttestors] using hmem
    rcases hmem' with h | h <;> subst h <;> decide)

end Witness
